import Mathlib

/-!
Verification of the filesystem MCP server (src/src/filesystem/server.py)
against its natural-language specification.

The server is a single dispatcher, `handle_call_tool(name, arguments)`,
with one branch per tool name.  We embed it shallowly: the filesystem is
an explicit value threaded through the handler, Python exceptions that
escape the handler are an `Except.error`, and the per-branch try/except
blocks (which convert operation failures into textual results) are
modelled by branches that return error strings inside a normal result.

Modelling conventions, recorded once here:
* Paths are normalized absolute paths, represented as lists of components;
  `parsePath` splits a caller string on "/" and drops empty components,
  `renderPath` renders components back (so `/a//b/` and `/a/b` coincide —
  the claims only exercise normalized absolute paths).
* The filesystem is an association list from component paths to entries;
  the root directory exists implicitly.  An `Entry.other` is anything a
  path can name that is neither a regular file nor a directory (socket,
  broken symlink, device).
* `str(e)` renderings of OS exceptions follow the CPython message shapes
  (without quoting) where a claim can observe them; messages of exotic
  type errors are coarse, since no claim depends on their exact text.
* `os.walk` is modelled with an explicit recursion-depth fuel; the handler
  supplies `fs.length + 1`, an upper bound on directory nesting depth
  (every directory strictly below the walk root is an entry of the
  association list), so the fueled walk equals the unbounded one.
-/

namespace FsServer

/-- A filesystem entry: a regular file with text content, a directory, or
anything else a path can name (socket, broken symbolic link, device). -/
inductive Entry where
  | file (content : String) : Entry
  | dir : Entry
  | other : Entry
deriving DecidableEq

/-- The filesystem: a finite association list from absolute component
paths to entries.  The root directory is implicit and always exists. -/
abbrev FS := List (List String × Entry)

/-- First-match lookup in the association list. -/
def lookupE : FS → List String → Option Entry
  | [], _ => Option.none
  | (k2, e) :: rest, k => if k2 = k then some e else lookupE rest k

/-- Remove every binding of key `k`. -/
def eraseKey (fs : FS) (k : List String) : FS :=
  fs.filter (fun ke => decide (ke.1 ≠ k))

/-- Set the entry at key `k` (removing any previous binding). -/
def setE (fs : FS) (k : List String) (e : Entry) : FS :=
  eraseKey fs k ++ [(k, e)]

/-- os.path.isdir: the root is always a directory. -/
def isdir (fs : FS) (k : List String) : Bool :=
  k.isEmpty ||
    (match lookupE fs k with
     | some Entry.dir => true
     | _ => false)

/-- os.path.isfile: true exactly for regular files. -/
def isfile (fs : FS) (k : List String) : Bool :=
  match lookupE fs k with
  | some (Entry.file _) => true
  | _ => false

/-- os.path.exists. -/
def existsE (fs : FS) (k : List String) : Bool :=
  k.isEmpty || (lookupE fs k).isSome

/-- Split a list of characters at "/" boundaries (components may be empty). -/
def splitSlashGo (acc : List Char) : List Char → List (List Char)
  | [] => [acc.reverse]
  | c :: cs => if c = '/' then acc.reverse :: splitSlashGo [] cs else splitSlashGo (c :: acc) cs

/-- Parse a caller path string into absolute path components. -/
def parsePath (s : String) : List String :=
  ((splitSlashGo [] s.data).map (fun cs => String.mk cs)).filter (fun c => !c.isEmpty)

/-- Render a component path back to a normalized absolute string. -/
def renderPath (p : List String) : String :=
  if p.isEmpty then "/" else p.foldl (fun acc c => acc ++ "/" ++ c) ""

/-- The last component of a path, as a (empty or singleton) list. -/
def lastComp (p : List String) : List String :=
  p.drop (p.length - 1)

/-- The values that can appear in the arguments mapping of a tool call
(the subset of JSON the claims exercise): strings, lists, and null. -/
inductive PyVal where
  | str (s : String) : PyVal
  | list (xs : List PyVal) : PyVal
  | none : PyVal

/-- Coarse model of Python str() on argument values; exact only on
strings, which is the only case a claim observes. -/
def pyStr : PyVal → String
  | PyVal.str s => s
  | PyVal.none => "None"
  | PyVal.list _ => "[list]"

/-- The arguments dictionary of a tool call. -/
abbrev Args := List (String × PyVal)

/-- dict.get(key): None when the key is missing. -/
def dictGet : Args → String → PyVal
  | [], _ => PyVal.none
  | (k2, v) :: rest, k => if k2 = k then v else dictGet rest k

/-- dict.get(key, default). -/
def dictGetD : Args → String → PyVal → PyVal
  | [], _, d => d
  | (k2, v) :: rest, k, d => if k2 = k then v else dictGetD rest k d

/-- A Python exception escaping handle_call_tool. -/
inductive PyExn where
  | attributeError (msg : String) : PyExn
  | typeError (msg : String) : PyExn
  | valueError (msg : String) : PyExn
deriving DecidableEq

/-- str(e) for `None.get(...)`. -/
def noneAttrMsg : String := "NoneType object has no attribute get"

/-- str(e) for iterating None. -/
def notIterableMsg : String := "NoneType object is not iterable"

/-- str(e) for open() on a non-string path (coarse). -/
def openTypeMsg : String := "expected str, bytes or os.PathLike object, not NoneType"

/-- str(e) for fnmatch on a non-string pattern (coarse). -/
def fnmatchTypeMsg : String := "fnmatch pattern must be a string"

/-- open(p, "r"): content of a regular file, an OSError message otherwise. -/
def open_read (fs : FS) (p : String) : Except String String :=
  match lookupE fs (parsePath p) with
  | some (Entry.file c) => Except.ok c
  | some Entry.dir => Except.error ("[Errno 21] Is a directory: " ++ p)
  | some Entry.other => Except.error ("[Errno 6] No such device or address: " ++ p)
  | Option.none =>
    if (parsePath p).isEmpty then Except.error ("[Errno 21] Is a directory: " ++ p)
    else Except.error ("[Errno 2] No such file or directory: " ++ p)

/-- open(p, "w"): creates or truncates the file (the write of the content
itself is a separate step, as in the source). -/
def open_write (fs : FS) (p : String) : Except String FS :=
  let k := parsePath p
  if isdir fs k then Except.error ("[Errno 21] Is a directory: " ++ p)
  else
    match lookupE fs k with
    | some Entry.other => Except.error ("[Errno 6] No such device or address: " ++ p)
    | _ =>
      if isdir fs k.dropLast then Except.ok (setE fs k (Entry.file ""))
      else Except.error ("[Errno 2] No such file or directory: " ++ p)

/-- One token of a compiled shell-glob pattern (fnmatch.translate). -/
inductive GTok where
  | star : GTok
  | qmark : GTok
  | lit (c : Char) : GTok
  | cls (neg : Bool) (body : List Char) : GTok
deriving DecidableEq

/-- Split a character list at the first closing bracket. -/
def findRBrack : List Char → Option (List Char × List Char)
  | [] => Option.none
  | c :: rest =>
    if c = ']' then some ([], rest)
    else (findRBrack rest).map (fun pr => (c :: pr.1, pr.2))

/-- Scan a bracket-class body after an opening bracket, following
fnmatch.translate: a leading exclamation mark negates, a closing bracket
right after it (or after the negation) is a literal member, and an
unterminated class makes the opening bracket a literal. -/
def splitClass : List Char → Option (Bool × List Char × List Char)
  | '!' :: ']' :: rest => (findRBrack rest).map (fun pr => (true, ']' :: pr.1, pr.2))
  | '!' :: rest => (findRBrack rest).map (fun pr => (true, pr.1, pr.2))
  | ']' :: rest => (findRBrack rest).map (fun pr => (false, ']' :: pr.1, pr.2))
  | cs => (findRBrack cs).map (fun pr => (false, pr.1, pr.2))

/-- Membership in a bracket-class body, with ranges; a dash that is the
last character is a literal member, and reversed ranges are empty. -/
def inClass : List Char → Char → Bool
  | [], _ => false
  | [a], c => a = c
  | a :: '-' :: [], c => a = c || c = '-'
  | a :: '-' :: b :: rest, c => (a ≤ c && c ≤ b) || inClass rest c
  | a :: rest, c => a = c || inClass rest c

/-- Compile a glob pattern to tokens (fueled; the fuel strictly exceeds
the number of remaining characters, so it never runs out). -/
def parseGlobF : Nat → List Char → List GTok
  | 0, _ => []
  | Nat.succ f, cs =>
    match cs with
    | [] => []
    | '*' :: ps => GTok.star :: parseGlobF f ps
    | '?' :: ps => GTok.qmark :: parseGlobF f ps
    | '[' :: ps =>
      match splitClass ps with
      | some (neg, body, rest) => GTok.cls neg body :: parseGlobF f rest
      | Option.none => GTok.lit '[' :: parseGlobF f ps
    | c :: ps => GTok.lit c :: parseGlobF f ps

/-- Compile a glob pattern to tokens. -/
def parseGlob (cs : List Char) : List GTok :=
  parseGlobF (cs.length + 1) cs

/-- Match compiled glob tokens against a character list (fueled; every
recursive call shrinks tokens plus characters, so the supplied fuel of
their combined length plus one never runs out). -/
def gmatchF : Nat → List GTok → List Char → Bool
  | 0, _, _ => false
  | Nat.succ f, ps, s =>
    match ps, s with
    | [], [] => true
    | GTok.star :: ps2, [] => gmatchF f ps2 []
    | GTok.star :: ps2, c :: cs => gmatchF f ps2 (c :: cs) || gmatchF f (GTok.star :: ps2) cs
    | GTok.qmark :: ps2, _ :: cs => gmatchF f ps2 cs
    | GTok.lit a :: ps2, c :: cs => a = c && gmatchF f ps2 cs
    | GTok.cls neg body :: ps2, c :: cs => (inClass body c != neg) && gmatchF f ps2 cs
    | _, _ => false

/-- fnmatch.fnmatch(name, pattern) on a POSIX platform (where normcase is
the identity): whole-name shell-glob matching. -/
def fnmatch (name pat : String) : Bool :=
  gmatchF (pat.data.length + name.data.length + 1) (parseGlob pat.data) name.data

/-- os.listdir: the names of the immediate children of a directory, in
association-list order (the OS-returned order of the model). -/
def os_listdir_names (fs : FS) (p : List String) : List String :=
  fs.filterMap (fun ke =>
    if ke.1.dropLast = p ∧ ke.1 ≠ [] then ke.1.getLast? else Option.none)

/-- os.listdir as called by the handler: fails on a missing path or on a
non-directory. -/
def os_listdir (fs : FS) (p : String) : Except String (List String) :=
  if isdir fs (parsePath p) then Except.ok (os_listdir_names fs (parsePath p))
  else
    match lookupE fs (parsePath p) with
    | some _ => Except.error ("[Errno 20] Not a directory: " ++ p)
    | Option.none => Except.error ("[Errno 2] No such file or directory: " ++ p)

/-- One item of os.walk output: (dirpath, dirnames, filenames). -/
abbrev WalkTriple := List String × List String × List String

/-- os.walk(top), topdown, onerror swallowed: yields the triple of a
directory before recursing into its subdirectories in listing order;
filenames are all non-directory children.  A top that is not a directory
yields nothing (the scandir error is swallowed).  Fueled recursion; see
the module comment. -/
def os_walk (fs : FS) : Nat → List String → List WalkTriple
  | 0, _ => []
  | Nat.succ fuel, p =>
    if isdir fs p then
      let names := os_listdir_names fs p
      let dirs := names.filter (fun n => isdir fs (p ++ [n]))
      let nondirs := names.filter (fun n => !isdir fs (p ++ [n]))
      (p, dirs, nondirs) :: dirs.flatMap (fun n => os_walk fs fuel (p ++ [n]))
    else []

/-- os.walk with adequate fuel (directory nesting depth is bounded by the
number of entries, since every directory below the top is an entry). -/
def os_walk_full (fs : FS) (p : List String) : List WalkTriple :=
  os_walk fs (fs.length + 1) p

/-- os.makedirs(path, exist_ok=True), step by step over the components:
existing directories are entered, missing ones created, and any prefix
occupied by a non-directory raises FileExistsError (which exist_ok does
not swallow, because isdir is false there).  The error carries the
filesystem as already modified, matching the partial effects of the real
call. -/
def os_makedirs_go (fs : FS) (pre : List String) : List String → Except (String × FS) FS
  | [] => Except.ok fs
  | c :: cs =>
    match lookupE fs (pre ++ [c]) with
    | some Entry.dir => os_makedirs_go fs (pre ++ [c]) cs
    | some _ => Except.error ("[Errno 17] File exists: " ++ renderPath (pre ++ [c]), fs)
    | Option.none => os_makedirs_go (setE fs (pre ++ [c]) Entry.dir) (pre ++ [c]) cs

/-- os.makedirs(path, exist_ok=True). -/
def os_makedirs (fs : FS) (p : String) : Except (String × FS) FS :=
  os_makedirs_go fs [] (parsePath p)

/-- Remap the subtree rooted at s to d (after discarding a replaced empty
directory entry at d). -/
def move_subtree (fs : FS) (s d : List String) : FS :=
  (fs.filter (fun ke => decide (ke.1 ≠ d))).map
    (fun ke => if s.isPrefixOf ke.1 then (d ++ ke.1.drop s.length, ke.2) else ke)

/-- An exception raised inside the move branch: shutil.Error from the
destination-collision check of shutil.move, or an OSError from the
underlying os.rename. -/
inductive MoveErr where
  | alreadyExists (real : List String) : MoveErr
  | osError (msg : String) : MoveErr
deriving DecidableEq

/-- str(e) of a move exception. -/
def moveErrStr : MoveErr → String
  | MoveErr.alreadyExists real => "Destination path " ++ renderPath real ++ " already exists"
  | MoveErr.osError m => m

/-- os.rename on POSIX: a missing source fails; a file (or other
non-directory) source silently replaces an existing file destination and
fails onto a directory destination; a directory source replaces only an
empty directory destination and cannot move below itself.  All failures
are OSError, never shutil.Error. -/
def os_rename (fs : FS) (s d : List String) : Except MoveErr FS :=
  match lookupE fs s with
  | Option.none =>
    if s.isEmpty then
      Except.error (MoveErr.osError ("[Errno 16] Device or resource busy: " ++ renderPath s))
    else
      Except.error (MoveErr.osError ("[Errno 2] No such file or directory: " ++ renderPath s))
  | some (Entry.file c) =>
    if isdir fs d then
      Except.error (MoveErr.osError ("[Errno 21] Is a directory: " ++ renderPath d))
    else Except.ok (setE (eraseKey fs s) d (Entry.file c))
  | some Entry.other =>
    if isdir fs d then
      Except.error (MoveErr.osError ("[Errno 21] Is a directory: " ++ renderPath d))
    else Except.ok (setE (eraseKey fs s) d Entry.other)
  | some Entry.dir =>
    if s = d then Except.ok fs
    else if s.isPrefixOf d then
      Except.error (MoveErr.osError ("[Errno 22] Invalid argument: " ++ renderPath d))
    else if existsE fs d && !(isdir fs d && (os_listdir_names fs d).isEmpty) then
      Except.error (MoveErr.osError ("[Errno 39] Directory not empty: " ++ renderPath d))
    else Except.ok (move_subtree fs s d)

/-- shutil.move on one filesystem, following the CPython source: when the
destination is an existing directory, a samefile source short-circuits
directly to os.rename (the case-insensitive-filesystem rename branch)
before the collision check; otherwise the move redirects to
destination/basename(source) and raises shutil.Error if that exists;
everything else is os.rename.  In this model, which has no hard links and
no symlinks, two paths name the same file exactly when their canonical
component lists are equal. -/
def shutil_move (fs : FS) (src dst : String) : Except MoveErr FS :=
  if isdir fs (parsePath dst) then
    if parsePath src = parsePath dst then
      os_rename fs (parsePath src) (parsePath dst)
    else if existsE fs (parsePath dst ++ lastComp (parsePath src)) then
      Except.error (MoveErr.alreadyExists (parsePath dst ++ lastComp (parsePath src)))
    else os_rename fs (parsePath src) (parsePath dst ++ lastComp (parsePath src))
  else os_rename fs (parsePath src) (parsePath dst)

/-- Line 296 of server.py: the type field of get_file_info, classified by
os.path.isfile alone. -/
def file_info_type (fs : FS) (p : String) : String :=
  if isfile fs (parsePath p) then "file" else "directory"

/-- st_size of the model stat: byte length of a file content. -/
def stat_size (fs : FS) (p : String) : Nat :=
  match lookupE fs (parsePath p) with
  | some (Entry.file c) => c.length
  | _ => 0

/-- Rendering of the info dictionary of get_file_info.  Only the type
field (and through it the file/directory dichotomy) is observed by a
claim; timestamps and permissions are outside the model, and the Python
dict syntax is abstracted. -/
def file_info_text (fs : FS) (p : String) : String :=
  "type: " ++ file_info_type fs p ++ ", size: " ++ toString (stat_size fs p)

/-- Branch of handle_call_tool for read_file (server.py lines 144-161):
the try/except turns any failure of open/read into an error text in a
normal result. -/
def read_file_branch (fs : FS) (path : PyVal) : List String × FS :=
  match path with
  | PyVal.str p =>
    match open_read fs p with
    | Except.ok c => ([c], fs)
    | Except.error m => (["Error reading file: " ++ m], fs)
  | _ => (["Error reading file: " ++ openTypeMsg], fs)

/-- The try/except body of one iteration of the read_multiple_files loop
(lines 166-182): the content on success, an embedded per-path error text
on failure. -/
def read_slot (fs : FS) (v : PyVal) : String :=
  match v with
  | PyVal.str p =>
    match open_read fs p with
    | Except.ok c => c
    | Except.error m => "Error reading file " ++ p ++ ": " ++ m
  | v => "Error reading file " ++ pyStr v ++ ": " ++ openTypeMsg

/-- The read_multiple_files loop (lines 165-183), appending one slot per
iterated path. -/
def rmf_loop (fs : FS) (results : List String) : List PyVal → List String
  | [] => results
  | p :: rest => rmf_loop fs (results ++ [read_slot fs p]) rest

/-- Branch for write_file (lines 185-203).  Opening with mode w truncates
or creates the file before the content is written, so a failing write of
a non-string content still leaves the truncated file behind. -/
def write_file_branch (fs : FS) (path content : PyVal) : List String × FS :=
  match path with
  | PyVal.str p =>
    match open_write fs p with
    | Except.error m => (["Error writing file: " ++ m], fs)
    | Except.ok fsT =>
      match content with
      | PyVal.str c => (["File written to " ++ p], setE fsT (parsePath p) (Entry.file c))
      | _ => (["Error writing file: write argument must be str"], fsT)
  | _ => (["Error writing file: " ++ openTypeMsg], fs)

/-- Branch for create_directory (lines 205-221). -/
def create_directory_branch (fs : FS) (path : PyVal) : List String × FS :=
  match path with
  | PyVal.str p =>
    match os_makedirs fs p with
    | Except.ok fs2 => (["Directory created at " ++ p], fs2)
    | Except.error (m, fs2) => (["Error creating directory: " ++ m], fs2)
  | _ => (["Error creating directory: " ++ openTypeMsg], fs)

/-- The tag of one item of the list_directory listing (line 227):
"[FILE] item" exactly when os.path.isfile holds of path/item, and
"[DIR] item" for everything else. -/
def list_dir_tag (fs : FS) (p : List String) (item : String) : String :=
  if isfile fs (p ++ [item]) then "[FILE] " ++ item else "[DIR] " ++ item

/-- Branch for list_directory (lines 223-240). -/
def list_directory_branch (fs : FS) (path : PyVal) : List String × FS :=
  match path with
  | PyVal.str p =>
    match os_listdir fs p with
    | Except.ok names =>
      ([String.intercalate "\n" (names.map (list_dir_tag fs (parsePath p)))], fs)
    | Except.error m => (["Error listing directory: " ++ m], fs)
  | _ => (["Error listing directory: " ++ openTypeMsg], fs)

/-- Branch for move_file (lines 242-259). -/
def move_file_branch (fs : FS) (source destination : PyVal) : List String × FS :=
  match source, destination with
  | PyVal.str src, PyVal.str dst =>
    match shutil_move fs src dst with
    | Except.ok fs2 => (["Moved " ++ src ++ " to " ++ dst], fs2)
    | Except.error e => (["Error moving file: " ++ moveErrStr e], fs)
  | _, _ => (["Error moving file: " ++ openTypeMsg], fs)

/-- fnmatch.fnmatch as called inside the search loop: a non-string
pattern raises a TypeError, which the surrounding try converts to an
error result. -/
def fnmatch_py (item : String) (pat : PyVal) : Except String Bool :=
  match pat with
  | PyVal.str p => Except.ok (fnmatch item p)
  | _ => Except.error fnmatchTypeMsg

/-- The any(...) generator over excludePatterns (line 269), with Python
short-circuiting: elements after the first match are never evaluated. -/
def any_match_list (item : String) : List PyVal → Except String Bool
  | [] => Except.ok false
  | e :: rest =>
    match fnmatch_py item e with
    | Except.error m => Except.error m
    | Except.ok true => Except.ok true
    | Except.ok false => any_match_list item rest

/-- Iterating excludePatterns: a list iterates its elements, a string
iterates its characters (each a one-character string), anything else
raises a TypeError. -/
def any_match (item : String) (excl : PyVal) : Except String Bool
  := match excl with
  | PyVal.list l => any_match_list item l
  | PyVal.str s => any_match_list item (s.data.map (fun ch => PyVal.str (String.singleton ch)))
  | _ => Except.error notIterableMsg

/-- The inner loop of search_files over files + dirs of one walked
directory (lines 268-272): excluded items are skipped, matching items are
appended as joined paths. -/
def search_inner (pat excl : PyVal) (root : List String) (acc : List String) :
    List String → Except String (List String)
  | [] => Except.ok acc
  | item :: more =>
    match any_match item excl with
    | Except.error m => Except.error m
    | Except.ok true => search_inner pat excl root acc more
    | Except.ok false =>
      match fnmatch_py item pat with
      | Except.error m => Except.error m
      | Except.ok true => search_inner pat excl root (acc ++ [renderPath (root ++ [item])]) more
      | Except.ok false => search_inner pat excl root acc more

/-- The outer loop of search_files over the os.walk triples (line 267). -/
def search_loop (pat excl : PyVal) (acc : List String) :
    List WalkTriple → Except String (List String)
  | [] => Except.ok acc
  | (root, dirs, files) :: rest =>
    match search_inner pat excl root acc (files ++ dirs) with
    | Except.error m => Except.error m
    | Except.ok acc2 => search_loop pat excl acc2 rest

/-- Branch for search_files (lines 261-285). -/
def search_files_branch (fs : FS) (path pattern excludes : PyVal) : List String × FS :=
  match path with
  | PyVal.str p =>
    match search_loop pattern excludes [] (os_walk_full fs (parsePath p)) with
    | Except.ok ms => ([String.intercalate "\n" ms], fs)
    | Except.error m => (["Error searching files: " ++ m], fs)
  | _ => (["Error searching files: " ++ openTypeMsg], fs)

/-- Branch for get_file_info (lines 287-311). -/
def get_file_info_branch (fs : FS) (path : PyVal) : List String × FS :=
  match path with
  | PyVal.str p =>
    if existsE fs (parsePath p) then ([file_info_text fs p], fs)
    else (["Error getting file info: [Errno 2] No such file or directory: " ++ p], fs)
  | _ => (["Error getting file info: " ++ openTypeMsg], fs)

/-- The nine tool names of the dispatcher (lines 144-320). -/
def knownTools : List String :=
  ["read_file", "read_multiple_files", "write_file", "create_directory",
   "list_directory", "move_file", "search_files", "get_file_info",
   "list_allowed_directories"]

/-- The eight tools whose branch reads arguments before its try/except. -/
def argTools : List String :=
  ["read_file", "read_multiple_files", "write_file", "create_directory",
   "list_directory", "move_file", "search_files", "get_file_info"]

/-- handle_call_tool (server.py lines 136-323).  The returned list models
the texts of the TextContent items; the filesystem is threaded
explicitly; an Except.error is a Python exception escaping the handler.
Each argument-taking branch calls arguments.get before its try/except, so
arguments = None raises an AttributeError there; the read_multiple_files
branch additionally iterates its paths argument outside the try/except;
an unknown name raises ValueError (line 323). -/
def handle_call_tool (fs : FS) (name : String) (arguments : Option Args) :
    Except PyExn (List String × FS) :=
  if name = "read_file" then
    match arguments with
    | Option.none => Except.error (PyExn.attributeError noneAttrMsg)
    | some args => Except.ok (read_file_branch fs (dictGet args "path"))
  else if name = "read_multiple_files" then
    match arguments with
    | Option.none => Except.error (PyExn.attributeError noneAttrMsg)
    | some args =>
      match dictGet args "paths" with
      | PyVal.list ps => Except.ok (rmf_loop fs [] ps, fs)
      | PyVal.str s =>
        Except.ok (rmf_loop fs [] (s.data.map (fun ch => PyVal.str (String.singleton ch))), fs)
      | _ => Except.error (PyExn.typeError notIterableMsg)
  else if name = "write_file" then
    match arguments with
    | Option.none => Except.error (PyExn.attributeError noneAttrMsg)
    | some args => Except.ok (write_file_branch fs (dictGet args "path") (dictGet args "content"))
  else if name = "create_directory" then
    match arguments with
    | Option.none => Except.error (PyExn.attributeError noneAttrMsg)
    | some args => Except.ok (create_directory_branch fs (dictGet args "path"))
  else if name = "list_directory" then
    match arguments with
    | Option.none => Except.error (PyExn.attributeError noneAttrMsg)
    | some args => Except.ok (list_directory_branch fs (dictGet args "path"))
  else if name = "move_file" then
    match arguments with
    | Option.none => Except.error (PyExn.attributeError noneAttrMsg)
    | some args =>
      Except.ok (move_file_branch fs (dictGet args "source") (dictGet args "destination"))
  else if name = "search_files" then
    match arguments with
    | Option.none => Except.error (PyExn.attributeError noneAttrMsg)
    | some args =>
      Except.ok (search_files_branch fs (dictGet args "path") (dictGet args "pattern")
        (dictGetD args "excludePatterns" (PyVal.list [])))
  else if name = "get_file_info" then
    match arguments with
    | Option.none => Except.error (PyExn.attributeError noneAttrMsg)
    | some args => Except.ok (get_file_info_branch fs (dictGet args "path"))
  else if name = "list_allowed_directories" then
    Except.ok (["List of allowed directories"], fs)
  else Except.error (PyExn.valueError ("Unknown tool: " ++ name))

deriving instance DecidableEq for Except

/-- Does a handler call raise (an exception escapes handle_call_tool)? -/
def raises (r : Except PyExn (List String × FS)) : Bool :=
  match r with
  | Except.error _ => true
  | Except.ok _ => false

/-- Is an argument value iterable in the sense of the paths loop? -/
def iterablePy : PyVal → Bool
  | PyVal.str _ => true
  | PyVal.list _ => true
  | _ => false

/-- Modelled from the spec (4.1, step 3; no counterpart exists anywhere
in the source): containment of a caller path under one allowed root,
compared on canonical path components, not string prefixes. -/
def spec_underAllowedRoot (p root : String) : Bool :=
  (parsePath root).isPrefixOf (parsePath p)

/-- Example filesystem: one nominal allowed root and one file outside it. -/
def fs_sandbox : FS :=
  [(["allowed"], Entry.dir), (["allowed", "ok.txt"], Entry.file "fine"),
   (["outside"], Entry.dir), (["outside", "secret.txt"], Entry.file "TOPSECRET")]

/-- Example filesystem: two plain files, for the move overwrite case. -/
def fs_two_files : FS := [(["a.txt"], Entry.file "A"), (["b.txt"], Entry.file "B")]

/-- Example filesystem: the search tree of the specification (a.txt,
b.log, sub/c.txt under one root). -/
def fs_tree : FS :=
  [(["r"], Entry.dir), (["r", "a.txt"], Entry.file "1"),
   (["r", "b.log"], Entry.file "2"), (["r", "sub"], Entry.dir),
   (["r", "sub", "c.txt"], Entry.file "3")]

/-- Example filesystem: a directory holding a regular file and a socket. -/
def fs_socket : FS :=
  [(["d"], Entry.dir), (["d", "a.txt"], Entry.file "x"), (["d", "sock"], Entry.other)]

/-- Example filesystem: one empty base directory. -/
def fs_base : FS := [(["base"], Entry.dir)]

/-- Example filesystem: a base directory with a regular file in it. -/
def fs_occupied : FS := [(["base"], Entry.dir), (["base", "f"], Entry.file "z")]

/-- Example filesystem: one readable file, for the multi-read example. -/
def fs_one_file : FS := [(["ok.txt"], Entry.file "hello")]

/-- Example filesystem: destination directory already holding the
basename of the source, for the move collision case. -/
def fs_collision : FS :=
  [(["d"], Entry.dir), (["d", "a.txt"], Entry.file "A"),
   (["s"], Entry.dir), (["s", "a.txt"], Entry.file "S")]

/-- Example filesystem: a directory /d that contains an entry named like
its own basename (/d/d), for the samefile move /d to /d. -/
def fs_selfmove : FS := [(["d"], Entry.dir), (["d", "d"], Entry.file "x")]

/-- The matches of one search as a flat filter over the walk output: the
reported entries are exactly the walked items whose base name is not
excluded and matches the pattern. -/
def search_matches_spec (pat : String) (excl : List String) (wl : List WalkTriple) :
    List String :=
  wl.flatMap (fun t =>
    ((t.2.2 ++ t.2.1).filter (fun item =>
      !(excl.any (fun e => fnmatch item e)) && fnmatch item pat)).map
        (fun item => renderPath (t.1 ++ [item])))

theorem lookupE_eraseKey (fs : FS) (k k2 : List String) (h : k2 ≠ k) :
    lookupE (eraseKey fs k) k2 = lookupE fs k2 := by
  induction fs with
  | nil => rfl
  | cons ke rest ih =>
    rcases ke with ⟨k3, e3⟩
    by_cases hk : k3 = k
    · subst hk
      have hne : ¬ k3 = k2 := fun hEq => h hEq.symm
      simp [eraseKey, List.filter_cons, lookupE, hne] at ih ⊢
      exact ih
    · simp [eraseKey, List.filter_cons, lookupE, hk] at ih ⊢
      by_cases hk2 : k3 = k2 <;> simp [hk2, ih]

theorem lookupE_eraseKey_self (fs : FS) (k : List String) :
    lookupE (eraseKey fs k) k = Option.none := by
  induction fs with
  | nil => rfl
  | cons ke rest ih =>
    rcases ke with ⟨k3, e3⟩
    by_cases hk : k3 = k <;> simp [eraseKey, List.filter_cons, lookupE, hk] at ih ⊢ <;>
      exact ih

theorem lookupE_append_right (l1 l2 : FS) (k : List String) (h : lookupE l1 k = Option.none) :
    lookupE (l1 ++ l2) k = lookupE l2 k := by
  induction l1 with
  | nil => rfl
  | cons ke rest ih =>
    rcases ke with ⟨k3, e3⟩
    by_cases hk : k3 = k
    · simp [lookupE, hk] at h
    · simp [lookupE, hk] at h ⊢
      exact ih h

theorem lookupE_append_left (l1 l2 : FS) (k : List String) (e : Entry)
    (h : lookupE l1 k = some e) : lookupE (l1 ++ l2) k = some e := by
  induction l1 with
  | nil => simp [lookupE] at h
  | cons ke rest ih =>
    rcases ke with ⟨k3, e3⟩
    by_cases hk : k3 = k <;> simp [lookupE, hk] at h ⊢
    · exact h
    · exact ih h

theorem lookupE_setE (fs : FS) (k k2 : List String) (e : Entry) :
    lookupE (setE fs k e) k2 = if k2 = k then some e else lookupE fs k2 := by
  by_cases h : k2 = k
  · subst h
    rw [setE, lookupE_append_right _ _ _ (lookupE_eraseKey_self fs k2)]
    simp [lookupE]
  · rw [if_neg h, setE]
    cases he : lookupE (eraseKey fs k) k2 with
    | none =>
      rw [lookupE_append_right _ _ _ he]
      rw [lookupE_eraseKey fs k k2 h] at he
      simp [lookupE, he]
      exact fun hEq : k = k2 => h hEq.symm
    | some e2 =>
      rw [lookupE_append_left _ _ _ _ he]
      rw [lookupE_eraseKey fs k k2 h] at he
      exact he.symm

/-- C1: the claim says every path resolving outside every allowed root is
rejected with OutsideSandbox before any filesystem call.  The code has no
validation at all: read_file opens the raw caller path directly, and here
returns the content of a file lying outside the only (nominal) allowed
root instead of rejecting it. -/
theorem c1_read_outside_sandbox :
    spec_underAllowedRoot "/outside/secret.txt" "/allowed" = false ∧
    lookupE fs_sandbox (parsePath "/outside/secret.txt") = some (Entry.file "TOPSECRET") ∧
    handle_call_tool fs_sandbox "read_file"
      (some [("path", PyVal.str "/outside/secret.txt")]) =
      Except.ok (["TOPSECRET"], fs_sandbox) :=
  ⟨by decide, by decide, by decide⟩

/-- C2: the claim says list_allowed_directories returns the configured
AllowedRoots verbatim.  The code has no AllowedRoots configuration and
returns the constant placeholder text for every filesystem and every
argument value, as this theorem states. -/
theorem c2_list_allowed_placeholder (fs : FS) (args : Option Args) :
    handle_call_tool fs "list_allowed_directories" args =
      Except.ok (["List of allowed directories"], fs) := rfl

/-- C3 counterexample: on the unknown operation name "delete_file" the
dispatcher does not return an error result; a ValueError escapes
handle_call_tool (modelled as Except.error), contradicting the claim that
no exception escapes the dispatch boundary. -/
theorem c3_unknown_tool_raises :
    handle_call_tool fs_sandbox "delete_file" (some []) =
      Except.error (PyExn.valueError "Unknown tool: delete_file") := by decide

/-- C3 amended: for every operation name outside the fixed set of 9 known
names, handle_call_tool raises ValueError (Unknown tool: name); the
exception escapes the dispatcher, and converting it into a per-request
error without crashing the process is done by the surrounding framework,
outside this code. -/
theorem c3_unknown_tool_valueerror (fs : FS) (args : Option Args) (name : String)
    (h : name ∉ knownTools) :
    handle_call_tool fs name args =
      Except.error (PyExn.valueError ("Unknown tool: " ++ name)) := by
  have h1 : ¬ name = "read_file" := fun hEq => h (by simp [knownTools, hEq])
  have h2 : ¬ name = "read_multiple_files" := fun hEq => h (by simp [knownTools, hEq])
  have h3 : ¬ name = "write_file" := fun hEq => h (by simp [knownTools, hEq])
  have h4 : ¬ name = "create_directory" := fun hEq => h (by simp [knownTools, hEq])
  have h5 : ¬ name = "list_directory" := fun hEq => h (by simp [knownTools, hEq])
  have h6 : ¬ name = "move_file" := fun hEq => h (by simp [knownTools, hEq])
  have h7 : ¬ name = "search_files" := fun hEq => h (by simp [knownTools, hEq])
  have h8 : ¬ name = "get_file_info" := fun hEq => h (by simp [knownTools, hEq])
  have h9 : ¬ name = "list_allowed_directories" := fun hEq => h (by simp [knownTools, hEq])
  simp [handle_call_tool, h1, h2, h3, h4, h5, h6, h7, h8, h9]

/-- C3 witness: the amended statement applied to the concrete unknown
name of the claim. -/
theorem c3_unknown_tool_valueerror_witness :
    "delete_file" ∉ knownTools ∧
    handle_call_tool fs_sandbox "delete_file" Option.none =
      Except.error (PyExn.valueError "Unknown tool: delete_file") :=
  ⟨by decide, c3_unknown_tool_valueerror fs_sandbox Option.none "delete_file" (by decide)⟩

/-- C4 counterexample: the destination /b.txt exists (content B), yet
move_file succeeds and silently replaces it with the content of the
source, instead of failing with AlreadyExists and leaving the
destination unchanged. -/
theorem c4_move_overwrites :
    existsE fs_two_files (parsePath "/b.txt") = true ∧
    lookupE fs_two_files (parsePath "/b.txt") = some (Entry.file "B") ∧
    handle_call_tool fs_two_files "move_file"
      (some [("source", PyVal.str "/a.txt"), ("destination", PyVal.str "/b.txt")]) =
      Except.ok (["Moved /a.txt to /b.txt"], [(["b.txt"], Entry.file "A")]) ∧
    lookupE [(["b.txt"], Entry.file "A")] (parsePath "/b.txt") = some (Entry.file "A") :=
  ⟨by decide, by decide, by decide, by decide⟩

theorem os_rename_ne_already_exists (fs : FS) (s d real : List String) :
    os_rename fs s d ≠ Except.error (MoveErr.alreadyExists real) := by
  unfold os_rename
  split <;> (repeat' split) <;> simp

/-- C4 amended: move_file fails with an already-exists error, leaving the
filesystem unchanged, exactly when the destination is an existing
directory other than the source itself whose entry basename(source)
already exists; a samefile move of a directory onto itself succeeds
without change even when it contains its own basename; and a destination
that is an existing file is silently overwritten by a successful move. -/
theorem c4_move_file_semantics :
    (∀ (fs : FS) (src dst : String) (real : List String),
      shutil_move fs src dst = Except.error (MoveErr.alreadyExists real) ↔
        (isdir fs (parsePath dst) = true ∧ parsePath src ≠ parsePath dst ∧
         real = parsePath dst ++ lastComp (parsePath src) ∧
         existsE fs real = true)) ∧
    (∀ (fs : FS) (args : Args) (src dst : String),
      dictGet args "source" = PyVal.str src →
      dictGet args "destination" = PyVal.str dst →
      isdir fs (parsePath dst) = true →
      parsePath src ≠ parsePath dst →
      existsE fs (parsePath dst ++ lastComp (parsePath src)) = true →
      handle_call_tool fs "move_file" (some args) =
        Except.ok (["Error moving file: " ++ ("Destination path " ++
          renderPath (parsePath dst ++ lastComp (parsePath src)) ++ " already exists")], fs)) ∧
    (∀ (fs : FS) (args : Args) (src dst : String) (c c2 : String),
      dictGet args "source" = PyVal.str src →
      dictGet args "destination" = PyVal.str dst →
      lookupE fs (parsePath src) = some (Entry.file c) →
      lookupE fs (parsePath dst) = some (Entry.file c2) →
      isdir fs (parsePath dst) = false →
      handle_call_tool fs "move_file" (some args) =
        Except.ok (["Moved " ++ src ++ " to " ++ dst],
          setE (eraseKey fs (parsePath src)) (parsePath dst) (Entry.file c)) ∧
      lookupE (setE (eraseKey fs (parsePath src)) (parsePath dst) (Entry.file c))
        (parsePath dst) = some (Entry.file c)) ∧
    (∀ (fs : FS) (args : Args) (src dst : String),
      dictGet args "source" = PyVal.str src →
      dictGet args "destination" = PyVal.str dst →
      parsePath src = parsePath dst →
      lookupE fs (parsePath dst) = some Entry.dir →
      handle_call_tool fs "move_file" (some args) =
        Except.ok (["Moved " ++ src ++ " to " ++ dst], fs)) := by
  refine ⟨?_, ?_, ?_, ?_⟩
  · intro fs src dst real
    constructor
    · intro h
      by_cases hdir : isdir fs (parsePath dst) = true
      · by_cases hsame : parsePath src = parsePath dst
        · rw [shutil_move, if_pos hdir, if_pos hsame] at h
          exact absurd h (os_rename_ne_already_exists fs _ _ real)
        · by_cases hex : existsE fs (parsePath dst ++ lastComp (parsePath src)) = true
          · rw [shutil_move, if_pos hdir, if_neg hsame, if_pos hex] at h
            have hreal := (Except.error.injEq _ _).mp h
            have hreal2 := (MoveErr.alreadyExists.injEq _ _).mp hreal
            exact ⟨hdir, hsame, hreal2.symm, hreal2 ▸ hex⟩
          · rw [shutil_move, if_pos hdir, if_neg hsame, if_neg hex] at h
            exact absurd h (os_rename_ne_already_exists fs _ _ real)
      · rw [shutil_move, if_neg hdir] at h
        exact absurd h (os_rename_ne_already_exists fs _ _ real)
    · rintro ⟨hdir, hsame, hreal, hex⟩
      subst hreal
      rw [shutil_move, if_pos hdir, if_neg hsame, if_pos hex]
  · intro fs args src dst hs hd hdir hsame hcol
    simp [handle_call_tool, move_file_branch, hs, hd, shutil_move, hdir, hsame, hcol,
      moveErrStr]
  · intro fs args src dst c c2 hs hd hsrc hdst hdir
    refine ⟨?_, ?_⟩
    · simp [handle_call_tool, move_file_branch, hs, hd, shutil_move, hdir, os_rename, hsrc]
    · simp [lookupE_setE]
  · intro fs args src dst hs hd hsame hdst
    have hdir : isdir fs (parsePath dst) = true := by simp [isdir, hdst]
    simp [handle_call_tool, move_file_branch, hs, hd, shutil_move, hdir, hsame, os_rename,
      hdst]

/-- C4 witness: the amended branches at concrete filesystems — the
directory collision (via both directions of the characterization), the
silent file overwrite, and the samefile no-op move of /d onto /d while
/d/d exists. -/
theorem c4_move_file_semantics_witness :
    shutil_move fs_collision "/s/a.txt" "/d" =
      Except.error (MoveErr.alreadyExists ["d", "a.txt"]) ∧
    handle_call_tool fs_collision "move_file"
      (some [("source", PyVal.str "/s/a.txt"), ("destination", PyVal.str "/d")]) =
      Except.ok (["Error moving file: Destination path /d/a.txt already exists"], fs_collision) ∧
    handle_call_tool fs_two_files "move_file"
      (some [("source", PyVal.str "/a.txt"), ("destination", PyVal.str "/b.txt")]) =
      Except.ok (["Moved /a.txt to /b.txt"], [(["b.txt"], Entry.file "A")]) ∧
    handle_call_tool fs_selfmove "move_file"
      (some [("source", PyVal.str "/d"), ("destination", PyVal.str "/d")]) =
      Except.ok (["Moved /d to /d"], fs_selfmove) := by
  refine ⟨?_, ?_, ?_, ?_⟩
  · exact (c4_move_file_semantics.1 fs_collision "/s/a.txt" "/d" ["d", "a.txt"]).mpr
      ⟨by decide, by decide, by decide, by decide⟩
  · have h := c4_move_file_semantics.2.1 fs_collision
      [("source", PyVal.str "/s/a.txt"), ("destination", PyVal.str "/d")]
      "/s/a.txt" "/d" rfl rfl (by decide) (by decide) (by decide)
    rw [h]; decide
  · have h := (c4_move_file_semantics.2.2.1 fs_two_files
      [("source", PyVal.str "/a.txt"), ("destination", PyVal.str "/b.txt")]
      "/a.txt" "/b.txt" "A" "B" rfl rfl (by decide) (by decide) (by decide)).1
    rw [h]; decide
  · exact c4_move_file_semantics.2.2.2 fs_selfmove
      [("source", PyVal.str "/d"), ("destination", PyVal.str "/d")]
      "/d" "/d" rfl rfl (by decide) (by decide)

theorem rmf_loop_eq (fs : FS) (acc : List String) (ps : List PyVal) :
    rmf_loop fs acc ps = acc ++ ps.map (read_slot fs) := by
  induction ps generalizing acc with
  | nil => simp [rmf_loop]
  | cons p rest ih => simp [rmf_loop, ih]

/-- C5: read_multiple_files returns exactly one slot per input path, in
input order: the content of the file when its read succeeds and an
embedded per-path error text when it fails, and a failing path neither
aborts the remaining reads nor the call as a whole. -/
theorem c5_read_multiple_files_slots (fs : FS) (args : Args) (ps : List PyVal)
    (h : dictGet args "paths" = PyVal.list ps) :
    handle_call_tool fs "read_multiple_files" (some args) =
      Except.ok (ps.map (read_slot fs), fs) ∧
    (ps.map (read_slot fs)).length = ps.length ∧
    (∀ i (hi : i < ps.length),
      (ps.map (read_slot fs)).get ⟨i, by simpa using hi⟩ = read_slot fs (ps.get ⟨i, hi⟩)) ∧
    (∀ p c, open_read fs p = Except.ok c → read_slot fs (PyVal.str p) = c) ∧
    (∀ p m, open_read fs p = Except.error m →
      read_slot fs (PyVal.str p) = "Error reading file " ++ p ++ ": " ++ m) := by
  refine ⟨?_, by simp, ?_, ?_, ?_⟩
  · simp [handle_call_tool, h, rmf_loop_eq]
  · intro i hi
    simp [List.get_eq_getElem, List.getElem_map]
  · intro p c hc
    simp [read_slot, hc]
  · intro p m hm
    simp [read_slot, hm]

/-- C5 witness: the mixed example of the specification, one existing and
one missing path, giving content and an embedded error in input order. -/
theorem c5_read_multiple_files_slots_witness :
    handle_call_tool fs_one_file "read_multiple_files"
      (some [("paths", PyVal.list [PyVal.str "/ok.txt", PyVal.str "/missing.txt"])]) =
      Except.ok (["hello",
        "Error reading file /missing.txt: [Errno 2] No such file or directory: /missing.txt"],
        fs_one_file) := by
  have h := (c5_read_multiple_files_slots fs_one_file
    [("paths", PyVal.list [PyVal.str "/ok.txt", PyVal.str "/missing.txt"])]
    [PyVal.str "/ok.txt", PyVal.str "/missing.txt"] rfl).1
  rw [h]; decide

theorem any_match_list_strs (item : String) (l : List String) :
    any_match_list item (l.map PyVal.str) =
      Except.ok (l.any (fun e => fnmatch item e)) := by
  induction l with
  | nil => rfl
  | cons e rest ih =>
    cases he : fnmatch item e <;>
      simp [any_match_list, fnmatch_py, he, ih, List.any_cons]

theorem search_inner_eq (pat : String) (excl : List String) (root : List String)
    (acc : List String) (items : List String) :
    search_inner (PyVal.str pat) (PyVal.list (excl.map PyVal.str)) root acc items =
      Except.ok (acc ++ (items.filter (fun item =>
        !(excl.any (fun e => fnmatch item e)) && fnmatch item pat)).map
          (fun item => renderPath (root ++ [item]))) := by
  induction items generalizing acc with
  | nil => simp [search_inner]
  | cons item more ih =>
    cases hex : excl.any (fun e => fnmatch item e) with
    | true =>
      simp [search_inner, any_match, any_match_list_strs, hex, ih, List.filter_cons]
    | false =>
      cases hp : fnmatch item pat with
      | true =>
        simp [search_inner, any_match, any_match_list_strs, hex, fnmatch_py, hp, ih,
          List.filter_cons]
      | false =>
        simp [search_inner, any_match, any_match_list_strs, hex, fnmatch_py, hp, ih,
          List.filter_cons]

theorem search_loop_eq (pat : String) (excl : List String) (acc : List String)
    (wl : List WalkTriple) :
    search_loop (PyVal.str pat) (PyVal.list (excl.map PyVal.str)) acc wl =
      Except.ok (acc ++ search_matches_spec pat excl wl) := by
  induction wl generalizing acc with
  | nil => simp [search_loop, search_matches_spec]
  | cons t rest ih =>
    rcases t with ⟨root, dirs, files⟩
    simp [search_loop, search_inner_eq, ih, search_matches_spec, List.flatMap_cons,
      List.append_assoc]

theorem mem_search_matches_spec (pat : String) (excl : List String)
    (wl : List WalkTriple) (q : String) :
    q ∈ search_matches_spec pat excl wl ↔
      ∃ root dirs files item, (root, dirs, files) ∈ wl ∧ item ∈ files ++ dirs ∧
        q = renderPath (root ++ [item]) ∧ fnmatch item pat = true ∧
        ∀ e ∈ excl, fnmatch item e = false := by
  simp only [search_matches_spec, List.mem_flatMap, List.mem_map, List.mem_filter,
    Bool.and_eq_true, Bool.not_eq_true']
  constructor
  · rintro ⟨⟨root, dirs, files⟩, hw, item, ⟨hitem, hex, hp⟩, hq⟩
    refine ⟨root, dirs, files, item, hw, hitem, hq.symm, hp, ?_⟩
    intro e he
    by_contra hne
    have : excl.any (fun e => fnmatch item e) = true :=
      List.any_eq_true.mpr ⟨e, he, by simpa using hne⟩
    simp [this] at hex
  · rintro ⟨root, dirs, files, item, hw, hitem, hq, hp, hexcl⟩
    refine ⟨⟨root, dirs, files⟩, hw, item, ⟨hitem, ?_, hp⟩, hq.symm⟩
    by_contra hne
    simp only [Bool.not_eq_false, List.any_eq_true] at hne
    obtain ⟨e, he, hfe⟩ := hne
    have := hexcl e he
    simp [this] at hfe

/-- C6: over the directories reached by the recursive walk from the
given root, an entry (file or directory) is reported by search_files
exactly when its base name matches the pattern under shell-glob semantics
and matches no exclude pattern; the walked items of each directory are
its non-directory children followed by its subdirectories. -/
theorem c6_search_files_match_iff (fs : FS) (args : Args) (p pat : String)
    (excl : List String)
    (hp : dictGet args "path" = PyVal.str p)
    (hpat : dictGet args "pattern" = PyVal.str pat)
    (hexcl : dictGetD args "excludePatterns" (PyVal.list []) =
      PyVal.list (excl.map PyVal.str)) :
    handle_call_tool fs "search_files" (some args) =
      Except.ok ([String.intercalate "\n"
        (search_matches_spec pat excl (os_walk_full fs (parsePath p)))], fs) ∧
    (∀ q, q ∈ search_matches_spec pat excl (os_walk_full fs (parsePath p)) ↔
      ∃ root dirs files item,
        (root, dirs, files) ∈ os_walk_full fs (parsePath p) ∧
        item ∈ files ++ dirs ∧
        q = renderPath (root ++ [item]) ∧
        fnmatch item pat = true ∧
        ∀ e ∈ excl, fnmatch item e = false) := by
  constructor
  · simp [handle_call_tool, search_files_branch, hp, hpat, hexcl, search_loop_eq]
  · intro q
    exact mem_search_matches_spec pat excl (os_walk_full fs (parsePath p)) q

/-- C6 witness: the concrete tree of the claim.  With pattern *.txt and
no excludes the reported matches are exactly /r/a.txt and /r/sub/c.txt
(b.log and sub are not reported), and adding exclude a.* drops
/r/a.txt. -/
theorem c6_search_files_match_iff_witness :
    handle_call_tool fs_tree "search_files"
      (some [("path", PyVal.str "/r"), ("pattern", PyVal.str "*.txt")]) =
      Except.ok (["/r/a.txt\n/r/sub/c.txt"], fs_tree) ∧
    handle_call_tool fs_tree "search_files"
      (some [("path", PyVal.str "/r"), ("pattern", PyVal.str "*.txt"),
        ("excludePatterns", PyVal.list [PyVal.str "a.*"])]) =
      Except.ok (["/r/sub/c.txt"], fs_tree) := by
  constructor
  · have h := (c6_search_files_match_iff fs_tree
      [("path", PyVal.str "/r"), ("pattern", PyVal.str "*.txt")]
      "/r" "*.txt" [] rfl rfl rfl).1
    rw [h]; decide
  · have h := (c6_search_files_match_iff fs_tree
      [("path", PyVal.str "/r"), ("pattern", PyVal.str "*.txt"),
        ("excludePatterns", PyVal.list [PyVal.str "a.*"])]
      "/r" "*.txt" ["a.*"] rfl rfl rfl).1
    rw [h]; decide

/-- C7: whenever the write of write_file opens successfully, the handler
reports success, an immediately following read_file on the same path
returns exactly the written content, and the entry at that path holds the
new content regardless of any previous content (full overwrite). -/
theorem c7_write_read_roundtrip (fs : FS) (args : Args) (p c : String) (fsT : FS)
    (hp : dictGet args "path" = PyVal.str p)
    (hc : dictGet args "content" = PyVal.str c)
    (hw : open_write fs p = Except.ok fsT) :
    handle_call_tool fs "write_file" (some args) =
      Except.ok (["File written to " ++ p], setE fsT (parsePath p) (Entry.file c)) ∧
    handle_call_tool (setE fsT (parsePath p) (Entry.file c)) "read_file"
      (some [("path", PyVal.str p)]) =
      Except.ok ([c], setE fsT (parsePath p) (Entry.file c)) ∧
    (∀ old, lookupE fs (parsePath p) = some (Entry.file old) →
      lookupE (setE fsT (parsePath p) (Entry.file c)) (parsePath p) =
        some (Entry.file c)) := by
  refine ⟨?_, ?_, ?_⟩
  · simp [handle_call_tool, write_file_branch, hp, hc, hw]
  · simp [handle_call_tool, read_file_branch, dictGet, open_read, lookupE_setE]
  · intro old hold
    simp [lookupE_setE]

/-- C7 witness: overwriting the existing file /base/f (old content z)
with new content and reading it back. -/
theorem c7_write_read_roundtrip_witness :
    handle_call_tool fs_occupied "write_file"
      (some [("path", PyVal.str "/base/f"), ("content", PyVal.str "fresh text")]) =
      Except.ok (["File written to /base/f"],
        [(["base"], Entry.dir), (["base", "f"], Entry.file "fresh text")]) ∧
    handle_call_tool [(["base"], Entry.dir), (["base", "f"], Entry.file "fresh text")]
      "read_file" (some [("path", PyVal.str "/base/f")]) =
      Except.ok (["fresh text"],
        [(["base"], Entry.dir), (["base", "f"], Entry.file "fresh text")]) := by
  have h := c7_write_read_roundtrip fs_occupied
    [("path", PyVal.str "/base/f"), ("content", PyVal.str "fresh text")]
    "/base/f" "fresh text" (setE fs_occupied (parsePath "/base/f") (Entry.file ""))
    rfl rfl (by decide)
  constructor
  · rw [h.1]; decide
  · have h2 := h.2.1
    rw [show setE (setE fs_occupied (parsePath "/base/f") (Entry.file ""))
        (parsePath "/base/f") (Entry.file "fresh text") =
        [(["base"], Entry.dir), (["base", "f"], Entry.file "fresh text")] from by decide] at h2
    exact h2

theorem append_shift (pre : List String) (c : String) (l : List String) :
    pre ++ c :: l = (pre ++ [c]) ++ l := by simp

theorem append_take_shift (pre : List String) (c : String) (l : List String) (i : Nat) :
    pre ++ (c :: l).take (i + 1) = (pre ++ [c]) ++ l.take i := by
  simp [List.take_succ_cons]

theorem os_makedirs_go_noop (rest : List String) : ∀ (fs : FS) (pre : List String),
    (∀ i, i < rest.length → lookupE fs (pre ++ rest.take (i + 1)) = some Entry.dir) →
    os_makedirs_go fs pre rest = Except.ok fs := by
  induction rest with
  | nil => intro fs pre h; rfl
  | cons c cs ih =>
    intro fs pre h
    have h0 := h 0 (by simp)
    simp only [List.take] at h0
    rw [os_makedirs_go, h0]
    apply ih
    intro i hi
    have h2 := h (i + 1) (by simpa using Nat.succ_lt_succ hi)
    rw [append_take_shift] at h2
    exact h2

theorem os_makedirs_go_creates (rest : List String) : ∀ (fs : FS) (pre : List String),
    (∀ i, i < rest.length →
      lookupE fs (pre ++ rest.take (i + 1)) = some Entry.dir ∨
      lookupE fs (pre ++ rest.take (i + 1)) = Option.none) →
    ∃ fs2, os_makedirs_go fs pre rest = Except.ok fs2 ∧
      (∀ k, lookupE fs2 k = lookupE fs k ∨ lookupE fs2 k = some Entry.dir) ∧
      (∀ i, 1 ≤ i → i ≤ rest.length → lookupE fs2 (pre ++ rest.take i) = some Entry.dir) := by
  induction rest with
  | nil =>
    intro fs pre _
    exact ⟨fs, rfl, fun k => Or.inl rfl, fun i h1 h2 => absurd (Nat.le_trans h1 h2) (by simp)⟩
  | cons c cs ih =>
    intro fs pre hfree
    rcases hfree 0 (by simp) with h0 | h0
    · simp only [List.take] at h0
      have hfree2 : ∀ i, i < cs.length →
          lookupE fs ((pre ++ [c]) ++ cs.take (i + 1)) = some Entry.dir ∨
          lookupE fs ((pre ++ [c]) ++ cs.take (i + 1)) = Option.none := by
        intro i hi
        have h2 := hfree (i + 1) (by simpa using Nat.succ_lt_succ hi)
        rw [append_take_shift] at h2
        exact h2
      obtain ⟨fs2, hgo, hpres, hdirs⟩ := ih fs (pre ++ [c]) hfree2
      refine ⟨fs2, ?_, hpres, ?_⟩
      · rw [os_makedirs_go, h0]; exact hgo
      · intro i h1 h2
        rcases Nat.exists_eq_add_of_le h1 with ⟨j, hj⟩
        subst hj
        cases j with
        | zero =>
          show lookupE fs2 (pre ++ [c]) = some Entry.dir
          rcases hpres (pre ++ [c]) with hk | hk
          · rw [hk]; exact h0
          · exact hk
        | succ j2 =>
          have hj2 : j2 + 1 ≤ cs.length := by
            simp only [List.length_cons] at h2; omega
          have hd := hdirs (j2 + 1) (by omega) hj2
          have hidx : 1 + (j2 + 1) = (j2 + 1) + 1 := by omega
          rw [hidx, append_take_shift]
          exact hd
    · simp only [List.take] at h0
      have hset : ∀ k, lookupE (setE fs (pre ++ [c]) Entry.dir) k =
          if k = pre ++ [c] then some Entry.dir else lookupE fs k :=
        fun k => lookupE_setE fs (pre ++ [c]) k Entry.dir
      have hfree2 : ∀ i, i < cs.length →
          lookupE (setE fs (pre ++ [c]) Entry.dir) ((pre ++ [c]) ++ cs.take (i + 1)) =
            some Entry.dir ∨
          lookupE (setE fs (pre ++ [c]) Entry.dir) ((pre ++ [c]) ++ cs.take (i + 1)) =
            Option.none := by
        intro i hi
        have h2 := hfree (i + 1) (by simpa using Nat.succ_lt_succ hi)
        rw [append_take_shift] at h2
        rw [hset]
        by_cases hkey : (pre ++ [c]) ++ cs.take (i + 1) = pre ++ [c]
        · rw [if_pos hkey]; left; rfl
        · rw [if_neg hkey]; exact h2
      obtain ⟨fs2, hgo, hpres, hdirs⟩ := ih (setE fs (pre ++ [c]) Entry.dir) (pre ++ [c]) hfree2
      refine ⟨fs2, ?_, ?_, ?_⟩
      · rw [os_makedirs_go, h0]; exact hgo
      · intro k
        rcases hpres k with hk | hk
        · rw [hset k] at hk
          by_cases hkey : k = pre ++ [c]
          · right; rw [hk, if_pos hkey]
          · left; rw [hk, if_neg hkey]
        · right; exact hk
      · intro i h1 h2
        rcases Nat.exists_eq_add_of_le h1 with ⟨j, hj⟩
        subst hj
        cases j with
        | zero =>
          show lookupE fs2 (pre ++ [c]) = some Entry.dir
          rcases hpres (pre ++ [c]) with hk | hk
          · rw [hk, hset (pre ++ [c]), if_pos rfl]
          · exact hk
        | succ j2 =>
          have hj2 : j2 + 1 ≤ cs.length := by
            simp only [List.length_cons] at h2; omega
          have hd := hdirs (j2 + 1) (by omega) hj2
          have hidx : 1 + (j2 + 1) = (j2 + 1) + 1 := by omega
          rw [hidx, append_take_shift]
          exact hd

theorem os_makedirs_go_occupied (rest : List String) : ∀ (fs : FS) (pre : List String),
    rest ≠ [] →
    (∀ i, 1 ≤ i → i < rest.length → lookupE fs (pre ++ rest.take i) = some Entry.dir) →
    ∀ e : Entry, lookupE fs (pre ++ rest) = some e → e ≠ Entry.dir →
    os_makedirs_go fs pre rest =
      Except.error ("[Errno 17] File exists: " ++ renderPath (pre ++ rest), fs) := by
  induction rest with
  | nil => intro fs pre hne; exact absurd rfl hne
  | cons c cs ih =>
    intro fs pre _ hpref e hleaf hnotdir
    cases cs with
    | nil =>
      have hleaf2 : lookupE fs (pre ++ [c]) = some e := hleaf
      rw [os_makedirs_go, hleaf2]
      cases e with
      | dir => exact absurd rfl hnotdir
      | file cont => rfl
      | other => rfl
    | cons c2 cs2 =>
      have h1 := hpref 1 (le_refl 1) (by simp)
      simp only [List.take] at h1
      rw [os_makedirs_go, h1]
      rw [append_shift pre c (c2 :: cs2)]
      have hpref2 : ∀ i, 1 ≤ i → i < (c2 :: cs2).length →
          lookupE fs ((pre ++ [c]) ++ (c2 :: cs2).take i) = some Entry.dir := by
        intro i hi1 hi2
        have hi3 : i + 1 < (c :: c2 :: cs2).length := by
          simp only [List.length_cons] at hi2 ⊢; omega
        rcases Nat.exists_eq_add_of_le hi1 with ⟨j, hj⟩
        subst hj
        have h2 := hpref (1 + j + 1) (by omega) (by simpa [Nat.add_comm] using hi3)
        have hidx : 1 + j + 1 = (1 + j) + 1 := rfl
        rw [hidx, append_take_shift] at h2
        exact h2
      have hleaf2 : lookupE fs ((pre ++ [c]) ++ (c2 :: cs2)) = some e := by
        rw [append_shift] at hleaf
        exact hleaf
      exact ih fs (pre ++ [c]) (by simp) hpref2 e hleaf2 hnotdir

/-- C8: create_directory is idempotent: when the directory (and its
ancestors) already exist it succeeds without changing the filesystem;
when every prefix of the path is a directory or missing it succeeds and
afterwards the directory and all its ancestors exist; and when a
non-directory file occupies the path it returns an error result. -/
theorem c8_create_directory_idempotent (fs : FS) (args : Args) (p : String)
    (hp : dictGet args "path" = PyVal.str p) :
    ((∀ i, i < (parsePath p).length →
        lookupE fs ((parsePath p).take (i + 1)) = some Entry.dir) →
      handle_call_tool fs "create_directory" (some args) =
        Except.ok (["Directory created at " ++ p], fs)) ∧
    ((∀ i, i < (parsePath p).length →
        lookupE fs ((parsePath p).take (i + 1)) = some Entry.dir ∨
        lookupE fs ((parsePath p).take (i + 1)) = Option.none) →
      ∃ fs2, handle_call_tool fs "create_directory" (some args) =
          Except.ok (["Directory created at " ++ p], fs2) ∧
        isdir fs2 (parsePath p) = true ∧
        (∀ i, i ≤ (parsePath p).length → isdir fs2 ((parsePath p).take i) = true)) ∧
    (∀ c2, (∀ i, 1 ≤ i → i < (parsePath p).length →
        lookupE fs ((parsePath p).take i) = some Entry.dir) →
      lookupE fs (parsePath p) = some (Entry.file c2) →
      parsePath p ≠ [] →
      handle_call_tool fs "create_directory" (some args) =
        Except.ok (["Error creating directory: " ++
          ("[Errno 17] File exists: " ++ renderPath (parsePath p))], fs)) := by
  refine ⟨?_, ?_, ?_⟩
  · intro h
    have hgo := os_makedirs_go_noop (parsePath p) fs [] (by simpa using h)
    simp [handle_call_tool, create_directory_branch, hp, os_makedirs, hgo]
  · intro h
    obtain ⟨fs2, hgo, hpres, hdirs⟩ :=
      os_makedirs_go_creates (parsePath p) fs [] (by simpa using h)
    refine ⟨fs2, ?_, ?_, ?_⟩
    · simp [handle_call_tool, create_directory_branch, hp, os_makedirs, hgo]
    · by_cases hnil : parsePath p = []
      · simp [isdir, hnil]
      · have hd := hdirs (parsePath p).length
          (Nat.succ_le_of_lt (List.length_pos.mpr hnil)) (le_refl _)
        rw [List.nil_append, List.take_length] at hd
        simp [isdir, hd]
    · intro i hi
      cases Nat.eq_zero_or_pos i with
      | inl h0 => subst h0; simp [isdir]
      | inr hpos =>
        have hd := hdirs i hpos hi
        rw [List.nil_append] at hd
        simp [isdir, hd]
  · intro c2 hpre hleaf hne
    have hgo := os_makedirs_go_occupied (parsePath p) fs [] hne (by simpa using hpre)
      (Entry.file c2) (by simpa using hleaf) (by intro h; exact Entry.noConfusion h)
    rw [List.nil_append] at hgo
    simp [handle_call_tool, create_directory_branch, hp, os_makedirs, hgo]

/-- C8 witness: creating an already existing directory leaves the
filesystem unchanged; creating /base/x/y creates the two missing
ancestors; creating over the regular file /base/f fails with an error
result. -/
theorem c8_create_directory_idempotent_witness :
    handle_call_tool fs_base "create_directory" (some [("path", PyVal.str "/base")]) =
      Except.ok (["Directory created at /base"], fs_base) ∧
    handle_call_tool fs_base "create_directory" (some [("path", PyVal.str "/base/x/y")]) =
      Except.ok (["Directory created at /base/x/y"],
        [(["base"], Entry.dir), (["base", "x"], Entry.dir), (["base", "x", "y"], Entry.dir)]) ∧
    isdir [(["base"], Entry.dir), (["base", "x"], Entry.dir), (["base", "x", "y"], Entry.dir)]
      (parsePath "/base/x/y") = true ∧
    handle_call_tool fs_occupied "create_directory" (some [("path", PyVal.str "/base/f")]) =
      Except.ok (["Error creating directory: [Errno 17] File exists: /base/f"],
        fs_occupied) := by
  have hbase := (c8_create_directory_idempotent fs_base
    [("path", PyVal.str "/base")] "/base" rfl).1
    (by intro i hi
        have hlen : (parsePath "/base").length = 1 := by decide
        have h0 : i = 0 := by omega
        subst h0; decide)
  refine ⟨hbase, by decide, by decide, ?_⟩
  have hocc := (c8_create_directory_idempotent fs_occupied
    [("path", PyVal.str "/base/f")] "/base/f" rfl).2.2 "z"
    (by intro i h1 h2
        have hlen : (parsePath "/base/f").length = 2 := by decide
        have h0 : i = 1 := by omega
        subst h0; decide)
    (by decide) (by decide)
  rw [hocc]; decide

/-- C9 counterexample: read_multiple_files raises a TypeError although
its arguments dictionary is not None and the name is known — the claim
that handle_call_tool raises exactly for None arguments or an unknown
name is false, because the paths iteration also sits outside the
try/except. -/
theorem c9_nonnull_args_still_raise :
    handle_call_tool fs_sandbox "read_multiple_files" (some []) =
      Except.error (PyExn.typeError notIterableMsg) ∧
    some ([] : Args) ≠ (Option.none : Option Args) ∧
    "read_multiple_files" ∈ knownTools :=
  ⟨by decide, by simp, by decide⟩

/-- C9 amended: handle_call_tool raises exactly when the arguments are
None for one of the eight argument-taking operations, or the operation
name is unknown, or the operation is read_multiple_files and its paths
argument is not iterable (not a list and not a string) — the latter case
raises even with a non-None arguments dictionary, because the paths loop
is outside the per-operation try/except. -/
theorem c9_raises_iff (fs : FS) (name : String) (args : Option Args) :
    raises (handle_call_tool fs name args) = true ↔
      ((args = Option.none ∧ name ∈ argTools) ∨
       name ∉ knownTools ∨
       (name = "read_multiple_files" ∧
         ∃ d, args = some d ∧ iterablePy (dictGet d "paths") = false)) := by
  by_cases h1 : name = "read_file"
  · subst h1
    cases args with
    | none => simp [handle_call_tool, raises, argTools, knownTools]
    | some d => simp [handle_call_tool, raises, argTools, knownTools]
  by_cases h2 : name = "read_multiple_files"
  · subst h2
    cases args with
    | none => simp [handle_call_tool, raises, argTools, knownTools]
    | some d =>
      cases hv : dictGet d "paths" with
      | str s => simp [handle_call_tool, raises, argTools, knownTools, hv, iterablePy]
      | list l => simp [handle_call_tool, raises, argTools, knownTools, hv, iterablePy]
      | none => simp [handle_call_tool, raises, argTools, knownTools, hv, iterablePy]
  by_cases h3 : name = "write_file"
  · subst h3
    cases args with
    | none => simp [handle_call_tool, raises, argTools, knownTools]
    | some d => simp [handle_call_tool, raises, argTools, knownTools]
  by_cases h4 : name = "create_directory"
  · subst h4
    cases args with
    | none => simp [handle_call_tool, raises, argTools, knownTools]
    | some d => simp [handle_call_tool, raises, argTools, knownTools]
  by_cases h5 : name = "list_directory"
  · subst h5
    cases args with
    | none => simp [handle_call_tool, raises, argTools, knownTools]
    | some d => simp [handle_call_tool, raises, argTools, knownTools]
  by_cases h6 : name = "move_file"
  · subst h6
    cases args with
    | none => simp [handle_call_tool, raises, argTools, knownTools]
    | some d => simp [handle_call_tool, raises, argTools, knownTools]
  by_cases h7 : name = "search_files"
  · subst h7
    cases args with
    | none => simp [handle_call_tool, raises, argTools, knownTools]
    | some d => simp [handle_call_tool, raises, argTools, knownTools]
  by_cases h8 : name = "get_file_info"
  · subst h8
    cases args with
    | none => simp [handle_call_tool, raises, argTools, knownTools]
    | some d => simp [handle_call_tool, raises, argTools, knownTools]
  by_cases h9 : name = "list_allowed_directories"
  · subst h9
    simp [handle_call_tool, raises, argTools, knownTools]
  simp [handle_call_tool, raises, argTools, knownTools, h1, h2, h3, h4, h5, h6, h7, h8, h9]

/-- C10: list_directory tags an entry [FILE] exactly when it is a
regular file and [DIR] otherwise, so a child that is neither a regular
file nor a directory (socket, broken symlink) is reported as [DIR]; the
type field of get_file_info follows the same dichotomy. -/
theorem c10_listing_dichotomy (fs : FS) (args : Args) (p : String)
    (hp : dictGet args "path" = PyVal.str p)
    (hdir : isdir fs (parsePath p) = true) :
    handle_call_tool fs "list_directory" (some args) =
      Except.ok ([String.intercalate "\n"
        ((os_listdir_names fs (parsePath p)).map (list_dir_tag fs (parsePath p)))], fs) ∧
    (∀ item, isfile fs (parsePath p ++ [item]) = true →
      list_dir_tag fs (parsePath p) item = "[FILE] " ++ item) ∧
    (∀ item, isfile fs (parsePath p ++ [item]) = false →
      list_dir_tag fs (parsePath p) item = "[DIR] " ++ item) ∧
    (∀ item, lookupE fs (parsePath p ++ [item]) = some Entry.other →
      list_dir_tag fs (parsePath p) item = "[DIR] " ++ item) ∧
    (∀ q, isfile fs (parsePath q) = true → file_info_type fs q = "file") ∧
    (∀ q, isfile fs (parsePath q) = false → file_info_type fs q = "directory") := by
  refine ⟨?_, ?_, ?_, ?_, ?_, ?_⟩
  · simp [handle_call_tool, list_directory_branch, hp, os_listdir, hdir]
  · intro item h
    simp [list_dir_tag, h]
  · intro item h
    simp [list_dir_tag, h]
  · intro item h
    simp [list_dir_tag, isfile, h]
  · intro q h
    simp [file_info_type, h]
  · intro q h
    simp [file_info_type, h]

/-- C10 witness: a directory whose children are a regular file and a
socket; the socket is tagged [DIR] in the listing and classified as
directory by get_file_info. -/
theorem c10_listing_dichotomy_witness :
    handle_call_tool fs_socket "list_directory" (some [("path", PyVal.str "/d")]) =
      Except.ok (["[FILE] a.txt\n[DIR] sock"], fs_socket) ∧
    lookupE fs_socket (parsePath "/d/sock") = some Entry.other ∧
    list_dir_tag fs_socket (parsePath "/d") "sock" = "[DIR] sock" ∧
    file_info_type fs_socket "/d/sock" = "directory" := by
  have h := c10_listing_dichotomy fs_socket [("path", PyVal.str "/d")] "/d" rfl (by decide)
  refine ⟨?_, by decide, ?_, ?_⟩
  · rw [h.1]; decide
  · have := h.2.2.2.1 "sock" (by decide)
    simpa using this
  · exact h.2.2.2.2.2 "/d/sock" (by decide)

end FsServer
